import Mathlib

/-!
Shallow embedding of the viur-core excerpt:
  * `src/bones/colorBone.py` — the color field validator (`colorBone`),
  * `src/core/render/html/default.py` — the HTML render bridge
    (`renderSkelStructure`, `renderBoneValue`, `getTemplateFileName`,
    and the template-retry logic of `list` / `listRootNodes`).

Python strings are modelled as Lean `String`; the Python string
operations used by the source (`str.lower`, `str.count`, membership of a
character in a string, slicing, `str.startswith`, `"__" in key`,
`str.split("_")[0]`) are given executable definitions over the underlying
character list so that concrete runs reduce inside the kernel.
Python dicts keyed by strings are modelled as association lists; a dict
coming from a real Python `dict` has distinct keys, and lookup takes the
first matching entry.
-/

/-- ASCII lowercasing of one character; models Python `str.lower` on the
ASCII inputs handled by this repository. -/
def pyCharLower (c : Char) : Char :=
  if 'A' ≤ c ∧ c ≤ 'Z' then Char.ofNat (c.toNat + 32) else c

/-- Python `s.lower()` (ASCII). -/
def pyLower (s : String) : String := ⟨s.data.map pyCharLower⟩

/-- Python `s.count(c)` for a single-character needle. -/
def strCount (s : String) (c : Char) : Nat := (s.data.filter (· == c)).length

/-- Python `all(ch in allowed for ch in s)`: every character of `s` occurs
in the string `allowed`. -/
def strAllIn (s allowed : String) : Bool :=
  s.data.all (fun c => allowed.data.contains c)

/-- Python `len(s)` (character count). -/
def strLen (s : String) : Nat := s.data.length

/-- `pat` occurs as a contiguous run inside `l` (Python `pat in s`). -/
def hasSubList (pat : List Char) : List Char → Bool
  | [] => pat.isPrefixOf []
  | c :: rest => pat.isPrefixOf (c :: rest) || hasSubList pat rest

/-- Python `pat in s` for strings. -/
def strHasSub (s pat : String) : Bool := hasSubList pat.data s.data

/-- Python `s.startswith(pre)`. -/
def pyStartsWith (s pre : String) : Bool := pre.data.isPrefixOf s.data

/-- Lookup in a Python dict modelled as an association list:
`d[k]` / `k in d` via `Option`. -/
def dictGet {α : Type} (d : List (String × α)) (k : String) : Option α :=
  (d.find? (fun kv => kv.1 == k)).map (·.2)

/-- The key set of a Python dict modelled as an association list. -/
def dictKeys {α : Type} (d : List (String × α)) : List String :=
  d.map (·.1)

/-! ## colorBone (src/bones/colorBone.py) -/

/-- State of a `colorBone` instance: the `mode` attribute fixed by the
constructor and the transient `value` slot written by `fromClient`. -/
structure ColorBone where
  mode : String
  value : Option String := none
deriving DecidableEq

/-- `colorBone.__init__`: `assert mode in ["rgb", "rgba"]` then store it.
A failing assert raises, modelled as `none`. -/
def colorBone.init (mode : String) : Option ColorBone :=
  if mode = "rgb" ∨ mode = "rgba" then some { mode := mode, value := none }
  else none

/-- The rgb 4-character expansion step of `colorBone.fromClient`:
`value[0:2] + value[1] + 2*value[2] + 2*value[3]` (Python slicing and
indexing; only ever reached on 4-character strings, where indexing cannot
raise). -/
def expand4 (v : String) : String :=
  ⟨v.data.take 2 ++ (v.data.drop 1).take 1 ++
    ((v.data.drop 2).take 1 ++ (v.data.drop 2).take 1) ++
    ((v.data.drop 3).take 1 ++ (v.data.drop 3).take 1)⟩

/-- `colorBone.fromClient(name, data)`: returns the error message (or
`none` for success) together with the bone state afterwards.  The Python
`for char in value` loop rejecting the first character outside
`"#0123456789abcdef"` is equivalent to the single `strAllIn` test because
every rejection returns the same message. -/
def colorBone.fromClient (self : ColorBone) (name : String)
    (data : List (String × String)) : Option String × ColorBone :=
  let value : Option String := dictGet data name
  if ¬ self.mode = "rgb" ∧ ¬ self.mode = "rgba" then
    (some "Invalid mode selected", self)
  else
    match value with
    | none => (none, self)
    | some v =>
      let value := pyLower v
      if strCount value '#' > 1 then (some "Invalid value entered", self)
      else if ¬ strAllIn value "#0123456789abcdef" then
        (some "Invalid value entered", self)
      else if self.mode = "rgb" then
        let value := if strLen value = 3 then "#" ++ value else value
        let value := if strLen value = 4 then expand4 value else value
        if strLen value = 6 ∨ strLen value = 7 then
          let value := if strLen value = 6 then "#" ++ value else value
          (none, { self with value := some value })
        else (some "Invalid value entered", self)
      else if self.mode = "rgba" then
        if strLen value = 8 ∨ strLen value = 9 then
          let value := if strLen value = 8 then "#" ++ value else value
          (none, { self with value := some value })
        else (some "Invalid value entered", self)
      else (none, self)

/-- Number of hex digits of an input: its characters that are not `#`. -/
def hexDigitCount (s : String) : Nat := (s.data.filter (· ≠ '#')).length

/-! ## Render values (src/core/render/html/default.py, renderBoneValue)

Python runtime values reaching `renderBoneValue` are modelled by `PyVal`:
`None`, strings, lists, string-keyed dicts, and opaque skeleton-like
objects (truthy, attribute-assignable).  Attribute assignments of the
form `x.renderPreparation = self.renderBoneValue` only install a callback
for later template-driven rendering; they are modelled as no-ops.
Operations that raise in Python (subscripting a non-dict, a missing dict
key, iterating a non-iterable) are modelled with `Except`. -/

inductive PyVal where
  | null
  | str (s : String)
  | list (xs : List PyVal)
  | dict (xs : List (String × PyVal))
  | skel (id : Nat)

/-- Python truthiness of a `PyVal`. -/
def truthy : PyVal → Bool
  | .null => false
  | .str s => !s.data.isEmpty
  | .list xs => !xs.isEmpty
  | .dict xs => !xs.isEmpty
  | .skel _ => true

/-- Python `v[k]` for a string key: `KeyError` on a dict without the key,
`TypeError` on anything that is not a dict. -/
def getItem : PyVal → String → Except String PyVal
  | .dict es, k =>
    match dictGet es k with
    | some v => .ok v
    | none => .error "KeyError"
  | _, _ => .error "TypeError"

/-- Python iteration `for x in v`: lists yield their elements, strings
their characters (as one-character strings), dicts their keys; everything
else raises `TypeError`. -/
def pyIter : PyVal → Except String (List PyVal)
  | .list xs => .ok xs
  | .str s => .ok (s.data.map (fun c => PyVal.str ⟨[c]⟩))
  | .dict es => .ok (es.map (fun e => PyVal.str e.1))
  | _ => .error "TypeError"

/-- Python `str(v)` for the values reaching the select branch; opaque
objects stringify to an unspecified tag (never inspected by the claims). -/
def pyStrOf : PyVal → String
  | .null => "None"
  | .str s => s
  | .list _ => "<list>"
  | .dict _ => "<dict>"
  | .skel _ => "<skeleton>"

/-- The bone attributes read by `renderBoneValue`.  `languages = []`
models a falsy `bone.languages` (Python `None` or the empty list);
`usingIsSome` models `bone.using is not None`; `values` is the select
bone's choices dict. -/
structure RBone where
  type : String
  languages : List String := []
  multiple : Bool := false
  values : List (String × String) := []
  usingIsSome : Bool := false
deriving DecidableEq

/-- `bone.type == t or bone.type.startswith(t + ".")`. -/
def typeMatches (boneType t : String) : Bool :=
  boneType == t || pyStartsWith boneType (t ++ ".")

/-- Results of `renderBoneValue`: `null` is Python `None` (whether
returned literally or passed through), `pyVal` is the default branch's
pass-through of a non-`None` stored value, and the remaining constructors
are the wrapper objects built by the individual branches. -/
inductive RVal where
  | null
  | pyStr (s : String)
  | pyVal (v : PyVal)
  | langWrapper (langs : List String) (entries : List (String × RVal))
  | keyValueWrapper (key : PyVal) (descr : String)
  | selectDict (entries : List (PyVal × PyVal))
  | relList (entries : List (PyVal × Option PyVal))
  | relDict (dest : PyVal) (rel : Option PyVal)
  | recList (entries : List PyVal)
  | recVal (v : PyVal)
  | encodedKey (v : PyVal)

/-- The default branch `return boneValue`: a stored Python `None` is the
same `None` as a literal `return None`. -/
def RVal.ofPy : PyVal → RVal
  | .null => .null
  | v => .pyVal v

/-- `usingData` of the relational branch: evaluate
`bone.using is not None and x["rel"]` (short-circuit: the subscript only
happens when `using` is set) and keep the truthy rel, else `None`. -/
def relUsingData (usingIsSome : Bool) (x : PyVal) : Except String (Option PyVal) :=
  if usingIsSome then do
    let rel ← getItem x "rel"
    pure (if truthy rel then some rel else none)
  else pure none

/-- The `type`-dispatch chain of `renderBoneValue`, i.e. the behaviour
once the language-wrapping guard has been passed (the source reaches this
code whenever `bone.languages` is falsy or `isLanguageWrapped` is true).
A branch that falls through (relational with a value that is neither list
nor dict, record with a falsy value) reaches the trailing `return None`. -/
def renderBoneValueDispatch (bone : RBone) (boneValue : PyVal) :
    Except String RVal :=
  if typeMatches bone.type "select" then
    match boneValue with
    | PyVal.list xs =>
      .ok (RVal.selectDict (xs.map (fun val =>
        (val, match val with
              | PyVal.str s =>
                match dictGet bone.values s with
                | some d => PyVal.str d
                | none => val
              | _ => val))))
    | v =>
      match v with
      | PyVal.str s =>
        match dictGet bone.values s with
        | some d => .ok (RVal.keyValueWrapper v d)
        | none => .ok (RVal.keyValueWrapper v (pyStrOf v))
      | _ => .ok (RVal.keyValueWrapper v (pyStrOf v))
  else if typeMatches bone.type "relational" then
    match boneValue with
    | PyVal.list xs => do
      let entries ← (xs.filter truthy).mapM (fun k => do
        let usingData ← relUsingData bone.usingIsSome k
        let dest ← getItem k "dest"
        pure (dest, usingData))
      .ok (RVal.relList entries)
    | PyVal.dict es => do
      let usingData ← relUsingData bone.usingIsSome (PyVal.dict es)
      let dest ← getItem (PyVal.dict es) "dest"
      .ok (RVal.relDict dest usingData)
    | _ => .ok RVal.null
  else if typeMatches bone.type "record" then
    if truthy boneValue then
      if bone.multiple then do
        let entries ← pyIter boneValue
        .ok (RVal.recList entries)
      else .ok (RVal.recVal boneValue)
    else .ok RVal.null
  else if bone.type == "password" then .ok (RVal.pyStr "")
  else if bone.type == "key" then
    .ok (if truthy boneValue then RVal.encodedKey boneValue else RVal.null)
  else .ok (RVal.ofPy boneValue)

/-- `Render.renderBoneValue(bone, skel, key, boneValue, isLanguageWrapped)`.
The language branch recurses with `isLanguageWrapped = True`, where the
guard is false, so those inner calls are exactly
`renderBoneValueDispatch` (see `renderBoneValue_wrapped`). -/
def renderBoneValue (bone : RBone) (boneValue : PyVal)
    (isLanguageWrapped : Bool) : Except String RVal :=
  if !bone.languages.isEmpty && !isLanguageWrapped then do
    let entries ←
      match boneValue with
      | PyVal.dict es =>
        (bone.languages.filter (fun l => (dictGet es l).isSome)).mapM
          (fun l => do
            let r ← renderBoneValueDispatch bone ((dictGet es l).getD PyVal.null)
            pure (l, r))
      | _ => pure []
    pure (RVal.langWrapper bone.languages entries)
  else renderBoneValueDispatch bone boneValue

/-! ## Skeleton structure rendering
(src/core/render/html/default.py, renderBoneStructure / renderSkelStructure) -/

/-- The attributes `renderBoneStructure` reads from every bone.  The
type-specific `ret.update(...)` extras (select choices, relational and
record sub-structures, date/numeric/text/str/captcha extras) enrich the
dict but are never consulted by the structural claims; the nested
skeleton rendering they would trigger is kept out of the model, so the
base attributes stand for the whole presentation dict. -/
structure StructBone where
  descr : String
  type : String
  required : Bool
  multiple : Bool
  params : List (String × String)
  visible : Bool
  readOnly : Bool
deriving DecidableEq

/-- An entry of `skel.items()`: either a `BaseBone` instance or any other
value (skipped by `renderSkelStructure`). -/
inductive SkelEntry where
  | bone (b : StructBone)
  | other
deriving DecidableEq

/-- `isinstance(entry, BaseBone)`. -/
def SkelEntry.isBaseBone : SkelEntry → Bool
  | .bone _ => true
  | .other => false

/-- A skeleton as `renderSkelStructure` sees it: the ordered field items
and the error mapping.  Both come from Python dicts, so keys are distinct
in any state produced by the framework. -/
structure Skel where
  items : List (String × SkelEntry)
  errors : List (String × String)
deriving DecidableEq

/-- The base presentation dict built by `renderBoneStructure` (see
`StructBone` for the treatment of the type-specific extras). -/
structure RenderedBoneDict where
  descr : String
  type : String
  required : Bool
  multiple : Bool
  params : List (String × String)
  visible : Bool
  readOnly : Bool
deriving DecidableEq

/-- `Render.renderBoneStructure(bone)`. -/
def renderBoneStructure (b : StructBone) : RenderedBoneDict :=
  { descr := b.descr, type := b.type, required := b.required,
    multiple := b.multiple, params := b.params, visible := b.visible,
    readOnly := b.readOnly }

/-- `Render.renderSkelStructure(skel)`: an ordered mapping from the kept
field names to the rendered bone dict together with its `error` entry
(`skel.errors[key]` when present, else `None`). -/
def renderSkelStructure (skel : Skel) :
    List (String × (RenderedBoneDict × Option String)) :=
  skel.items.filterMap (fun kv =>
    if strHasSub kv.1 "__" || !kv.2.isBaseBone then none
    else
      match kv.2 with
      | .other => none
      | .bone b =>
        some (kv.1, (renderBoneStructure b, dictGet skel.errors kv.1)))

/-! ## Template file resolution
(src/core/render/html/default.py, getTemplateFileName and the
list / listRootNodes retry logic) -/

/-- The ambient inputs of `getTemplateFileName`: the file-existence
oracle `isfile`, `utils.projectBasePath`, the renderer's `htmlpath`
attribute (defaulted to `"html"` by the caller side of the model), the
current request's optional `style` kwarg and the current display
language (`""` models a falsy `currentLanguage.get()`). -/
structure TemplateCtx where
  isfile : String → Bool
  projectBasePath : String
  htmlpath : String
  styleKw : Option String
  lang : String

/-- `os.path.join` on relative components. -/
def pathJoin (xs : List String) : String := String.intercalate "/" xs

/-- The `validChars` constant of `getTemplateFileName`. -/
def validCharsTemplate : String := "abcdefghijklmnopqrstuvwxyz1234567890-"

/-- The `stylePostfix` computation: `"_" + style` when a style kwarg is
present, `ignoreStyle` is off and every character of the lowercased style
is in `validChars`, else `""` (note the source checks the lowercased
style but appends the original). -/
def stylePostfix (ignoreStyle : Bool) (styleKw : Option String) : String :=
  match styleKw with
  | some s =>
    if !ignoreStyle && strAllIn (pyLower s) validCharsTemplate then "_" ++ s
    else ""
  | none => ""

/-- The candidate file names `fnames`: four when a display language is
set, two otherwise. -/
def templateFnames (template sp lang : String) : List String :=
  if lang ≠ "" then
    [lang ++ "/" ++ (template ++ sp ++ ".html"),
     template ++ sp ++ ".html",
     lang ++ "/" ++ (template ++ ".html"),
     template ++ ".html"]
  else
    [template ++ sp ++ ".html", template ++ ".html"]

/-- `template.split("_")[0]`: the part before the first underscore. -/
def templatePfx (template : String) : String :=
  ⟨template.data.takeWhile (fun c => c ≠ '_')⟩

/-- `Render.getTemplateFileName(template, ignoreStyle)`: probe the
application-specific subfolder, then the application's template folder,
then the built-in fallback folder, each over `fnames` in order; raise
`NotFound` (modelled as `Except.error`) when nothing matches. -/
def getTemplateFileName (ctx : TemplateCtx) (template : String)
    (ignoreStyle : Bool) : Except String String :=
  let sp := stylePostfix ignoreStyle ctx.styleKw
  let fns := templateFnames template sp ctx.lang
  let pfx := templatePfx template
  match fns.find? (fun fn =>
      ctx.isfile (pathJoin [ctx.projectBasePath, ctx.htmlpath, pfx, fn])) with
  | some fn => .ok (pfx ++ "/" ++ fn)
  | none =>
  match fns.find? (fun fn =>
      ctx.isfile (pathJoin [ctx.projectBasePath, ctx.htmlpath, fn])) with
  | some fn => .ok fn
  | none =>
  match fns.find? (fun fn =>
      ctx.isfile (pathJoin [ctx.projectBasePath, "viur", "core", "template", fn])) with
  | some fn => .ok fn
  | none => .error ("Template " ++ template ++ " not found.")

/-- Modelled from the spec's description of resolution (and the claim's
wording): the full ordered candidate list when a display language is
present — the four candidate names, probed under the
application-specific subfolder tier, then the application template-root
tier, then the built-in fallback tier; each candidate carries the path
probed and the name returned on a hit. -/
def specCandidates (ctx : TemplateCtx) (template : String)
    (ignoreStyle : Bool) : List (String × String) :=
  let sp := stylePostfix ignoreStyle ctx.styleKw
  let names := [ctx.lang ++ "/" ++ (template ++ sp ++ ".html"),
                template ++ sp ++ ".html",
                ctx.lang ++ "/" ++ (template ++ ".html"),
                template ++ ".html"]
  let pfx := templatePfx template
  (names.map (fun fn =>
    (pathJoin [ctx.projectBasePath, ctx.htmlpath, pfx, fn], pfx ++ "/" ++ fn)))
  ++ (names.map (fun fn =>
    (pathJoin [ctx.projectBasePath, ctx.htmlpath, fn], fn)))
  ++ (names.map (fun fn =>
    (pathJoin [ctx.projectBasePath, "viur", "core", "template", fn], fn)))

/-- Modelled from the spec: return the first existing candidate's name,
else the Not-Found failure. -/
def specResolve (isfile : String → Bool) (cands : List (String × String))
    (errMsg : String) : Except String String :=
  match cands.find? (fun c => isfile c.1) with
  | some c => .ok c.2
  | none => .error errMsg

/-- The template-resolution control flow of `Render.list`: a first
resolution attempt whose `NotFound` is caught and replaced by a second
attempt with the hard-coded name `"list"`; on success the source resolves
the same name again for `get_template`. -/
def listResolveTemplate (ctx : TemplateCtx) (tpl : String) :
    Except String String :=
  match getTemplateFileName ctx tpl false with
  | .ok _ => getTemplateFileName ctx tpl false
  | .error _ => getTemplateFileName ctx "list" false

/-- The identical control flow of `Render.listRootNodes`. -/
def listRootNodesResolveTemplate (ctx : TemplateCtx) (tpl : String) :
    Except String String :=
  match getTemplateFileName ctx tpl false with
  | .ok _ => getTemplateFileName ctx tpl false
  | .error _ => getTemplateFileName ctx "list" false

/-- Whether a value is a Python list or dict (the two shapes the
relational branch of `renderBoneValue` renders). -/
def isListOrDict : PyVal → Bool
  | .list _ => true
  | .dict _ => true
  | _ => false

/-- Whether a render result is Python `None`. -/
def RVal.isNull : RVal → Bool
  | .null => true
  | _ => false

/-- A sample visible str bone for concrete skeleton runs. -/
def egStructBone : StructBone :=
  { descr := "Name", type := "str", required := true, multiple := false,
    params := [], visible := true, readOnly := false }

/-- A sample skeleton: one visible field, one internal-marker field, one
non-bone entry; one recorded error. -/
def egSkel : Skel :=
  { items := [("a", .bone egStructBone), ("__internal", .bone egStructBone),
              ("b", .other)],
    errors := [("a", "No value entered")] }

/-- A sample template context: only the application-root file
`base/html/list.html` and the fallback-root file
`base/viur/core/template/view.html` exist. -/
def egCtx : TemplateCtx :=
  { isfile := fun p => p == "base/html/list.html"
      || p == "base/viur/core/template/view.html",
    projectBasePath := "base", htmlpath := "html",
    styleKw := none, lang := "de" }

/-! ## Theorems -/

example :
    colorBone.fromClient { mode := "rgb" } "c" [("c", "ABC")]
      = (none, { mode := "rgb", value := some "#aabbcc" }) := by decide

example :
    colorBone.fromClient { mode := "rgb" } "c" [("c", "#1a2b3c")]
      = (none, { mode := "rgb", value := some "#1a2b3c" }) := by decide

example :
    colorBone.fromClient { mode := "rgba" } "c" [("c", "1a2b3c4d")]
      = (none, { mode := "rgba", value := some "#1a2b3c4d" }) := by decide

example :
    colorBone.fromClient { mode := "rgba" } "c" [("c", "1a2b3c")]
      = (some "Invalid value entered", { mode := "rgba" }) := by decide

/-- Helper: an absent field name makes the dict lookup fail. -/
theorem dictGet_eq_none_of_not_mem {α : Type} (d : List (String × α))
    (k : String) (h : k ∉ dictKeys d) : dictGet d k = none := by
  unfold dictGet
  rw [List.find?_eq_none.mpr]
  · rfl
  · intro kv hkv
    simp only [beq_iff_eq]
    intro hk
    exact h (hk ▸ List.mem_map_of_mem _ hkv)

/-- Helper: a successful dict lookup's key is present. -/
theorem dictGet_isSome_iff_mem {α : Type} (d : List (String × α))
    (k : String) : (dictGet d k).isSome ↔ k ∈ dictKeys d := by
  unfold dictGet dictKeys
  induction d with
  | nil => simp
  | cons kv rest ih =>
    by_cases h : kv.1 = k
    · simp [List.find?, h]
    · have : (kv.1 == k) = false := by simp [h]
      simp [List.find?, this, ih, h, Ne.symm h]

/-- C1: the claim says an rgb input whose hex-digit count is neither 3
nor 6 fails with "Invalid value entered"; the code accepts the bare
4-digit input "abcd", scrambles it through the 4-character expansion
step (meant only for the `#`-prepended 3-digit shorthand) and stores
"abbccdd". -/
theorem colorBone_rgb_accepts_four_bare_digits :
    hexDigitCount "abcd" = 4 ∧ strCount "abcd" '#' = 0 ∧
      strAllIn "abcd" "#0123456789abcdef" = true ∧
      colorBone.fromClient { mode := "rgb" } "color" [("color", "abcd")]
        = (none, { mode := "rgb", value := some "abbccdd" }) := by
  refine ⟨by decide, by decide, by decide, by decide⟩

/-- C2: the claim says a stored value is always `#`-prefixed (length 9 in
rgba mode); the code stores the bare 9-digit rgba input "123456789"
unchanged, without a `#`. -/
theorem colorBone_rgba_stores_unprefixed_value :
    colorBone.fromClient { mode := "rgba" } "color" [("color", "123456789")]
      = (none, { mode := "rgba", value := some "123456789" }) ∧
      pyStartsWith "123456789" "#" = false := by
  refine ⟨by decide, by decide⟩

/-- C3: when the field's name is absent from the request data,
`fromClient` succeeds and leaves the bone unchanged, for every mode a
constructed bone can have. -/
theorem colorBone_fromClient_absent_name_succeeds (self : ColorBone)
    (name : String) (data : List (String × String))
    (hmode : self.mode = "rgb" ∨ self.mode = "rgba")
    (habs : name ∉ dictKeys data) :
    colorBone.fromClient self name data = (none, self) := by
  unfold colorBone.fromClient
  rw [dictGet_eq_none_of_not_mem data name habs]
  rcases hmode with h | h <;> simp [h]

/-- Witness for C3. -/
theorem colorBone_fromClient_absent_name_succeeds_witness :
    colorBone.fromClient { mode := "rgb", value := some "#aabbcc" } "color"
        [("other", "fff")]
      = (none, { mode := "rgb", value := some "#aabbcc" }) :=
  colorBone_fromClient_absent_name_succeeds _ _ _ (Or.inl rfl) (by decide)

/-- Helper: `fromClient` only ever produces the two messages, and
"Invalid mode selected" only under an invalid mode. -/
theorem colorBone_fromClient_mode_msg (self : ColorBone) (name : String)
    (data : List (String × String))
    (h : (colorBone.fromClient self name data).1 = some "Invalid mode selected") :
    ¬ self.mode = "rgb" ∧ ¬ self.mode = "rgba" := by
  unfold colorBone.fromClient at h
  by_cases hm : ¬ self.mode = "rgb" ∧ ¬ self.mode = "rgba"
  · exact hm
  · exfalso
    rw [if_neg hm] at h
    rcases hd : dictGet data name with _ | v
    · rw [hd] at h; simp at h
    · rw [hd] at h
      simp only at h
      repeat' split at h
      all_goals simp at h

/-- C10: the constructor admits exactly the modes "rgb" and "rgba"
(raising otherwise), and on every bone it builds the
"Invalid mode selected" branch of `fromClient` is unreachable. -/
theorem colorBone_init_mode_safety :
    (∀ mode : String, mode ≠ "rgb" → mode ≠ "rgba" → colorBone.init mode = none) ∧
    (∀ (mode : String) (b : ColorBone), colorBone.init mode = some b →
      (b.mode = "rgb" ∨ b.mode = "rgba") ∧
      ∀ (name : String) (data : List (String × String)),
        (colorBone.fromClient b name data).1 ≠ some "Invalid mode selected") := by
  constructor
  · intro mode h1 h2
    unfold colorBone.init
    simp [h1, h2]
  · intro mode b hb
    unfold colorBone.init at hb
    split at hb
    case isTrue hm =>
      have hbm : b.mode = mode := by
        cases hb; rfl
      constructor
      · rw [hbm]; exact hm
      · intro name data hcon
        have := colorBone_fromClient_mode_msg b name data hcon
        rw [hbm] at this
        rcases hm with h | h
        · exact this.1 h
        · exact this.2 h
    case isFalse => exact absurd hb (by simp)

/-- Witness for C10. -/
theorem colorBone_init_mode_safety_witness :
    (colorBone.fromClient { mode := "rgb", value := none } "c"
        [("c", "zzz")]).1 ≠ some "Invalid mode selected" :=
  (colorBone_init_mode_safety.2 "rgb" { mode := "rgb", value := none }
    (by decide)).2 "c" [("c", "zzz")]

/-- C5: the rendered structure holds exactly the skeleton's fields whose
names lack the "__" marker and whose values are bone instances, in
declared order; everything else is skipped. -/
theorem renderSkelStructure_exact_fields (skel : Skel) :
    (renderSkelStructure skel).map Prod.fst
      = ((skel.items.filter
          (fun kv => !strHasSub kv.1 "__" && kv.2.isBaseBone)).map Prod.fst) := by
  unfold renderSkelStructure
  induction skel.items with
  | nil => rfl
  | cons kv rest ih =>
    obtain ⟨k, e⟩ := kv
    cases e with
    | bone b =>
      by_cases hsub : strHasSub k "__" <;>
        [skip; skip] <;>
        (simp [List.filterMap_cons, List.filter_cons, hsub,
          SkelEntry.isBaseBone] at ih ⊢) <;>
        exact ih
    | other =>
      simp [List.filterMap_cons, List.filter_cons, SkelEntry.isBaseBone] at ih ⊢
      exact ih

/-- C6: every retained field's rendered `error` entry equals the
skeleton's recorded message for that field, and is non-null exactly when
the field name is present in the error mapping. -/
theorem renderSkelStructure_error_iff (skel : Skel) (k : String)
    (entry : RenderedBoneDict × Option String)
    (hmem : (k, entry) ∈ renderSkelStructure skel) :
    entry.2 = dictGet skel.errors k ∧
      (entry.2 ≠ none ↔ k ∈ dictKeys skel.errors) := by
  have h2 : entry.2 = dictGet skel.errors k := by
    unfold renderSkelStructure at hmem
    obtain ⟨kv, hkv, hf⟩ := List.mem_filterMap.mp hmem
    by_cases hc : strHasSub kv.1 "__" || !kv.2.isBaseBone
    · rw [if_pos hc] at hf
      exact absurd hf (by simp)
    · rw [if_neg hc] at hf
      cases he : kv.2 with
      | other => rw [he] at hf; exact absurd hf (by simp)
      | bone b =>
        rw [he] at hf
        have := Option.some.inj hf
        have hk : kv.1 = k := congrArg Prod.fst this
        have hv : (renderBoneStructure b, dictGet skel.errors kv.1) = entry :=
          congrArg Prod.snd this
        rw [← hv, hk]
  refine ⟨h2, ?_⟩
  rw [h2, ← dictGet_isSome_iff_mem]
  cases dictGet skel.errors k <;> simp

/-- Witness for C6: field "a" of the sample skeleton carries its
recorded message; (run also shows the absent case via the iff). -/
theorem renderSkelStructure_error_iff_witness :
    ((renderBoneStructure egStructBone, some "No value entered")
        : RenderedBoneDict × Option String).2 = dictGet egSkel.errors "a" ∧
      (((renderBoneStructure egStructBone, some "No value entered")
        : RenderedBoneDict × Option String).2 ≠ none ↔ "a" ∈ dictKeys egSkel.errors) :=
  renderSkelStructure_error_iff egSkel "a" _ (by decide)

/-- C7: a password bone (no per-language wrapping configured) renders to
the empty string whatever the stored value is; in particular two stored
secrets render identically. -/
theorem renderBoneValue_password_constant (bone : RBone)
    (htype : bone.type = "password") (hlang : bone.languages = [])
    (wrapped : Bool) (v1 v2 : PyVal) :
    renderBoneValue bone v1 wrapped = .ok (RVal.pyStr "") ∧
      renderBoneValue bone v1 wrapped = renderBoneValue bone v2 wrapped := by
  have hsel : typeMatches "password" "select" = false := by decide
  have hrel : typeMatches "password" "relational" = false := by decide
  have hrec : typeMatches "password" "record" = false := by decide
  have hmain : ∀ v : PyVal, renderBoneValue bone v wrapped = .ok (RVal.pyStr "") := by
    intro v
    unfold renderBoneValue renderBoneValueDispatch
    rw [hlang, htype]
    simp [hsel, hrel, hrec]
  exact ⟨hmain v1, (hmain v1).trans (hmain v2).symm⟩

/-- Witness for C7: a long secret and an empty store render the same. -/
theorem renderBoneValue_password_constant_witness :
    renderBoneValue { type := "password" }
        (PyVal.str "correct-horse-battery-staple") false
      = .ok (RVal.pyStr "") ∧
      renderBoneValue { type := "password" }
          (PyVal.str "correct-horse-battery-staple") false
        = renderBoneValue { type := "password" } PyVal.null false :=
  renderBoneValue_password_constant _ rfl rfl false _ _

/-- C4 counterexample: a relational bone (neither record- nor key-typed)
whose value is `None` renders to `None`, against the claim that only an
empty record value yields a null result. -/
theorem renderBoneValue_relational_none_returns_null :
    renderBoneValue { type := "relational" } PyVal.null false = .ok RVal.null ∧
      typeMatches "relational" "record" = false ∧
      ("relational" : String) ≠ "key" :=
  ⟨rfl, by decide, by decide⟩

/-- Helper: an `Except` bind whose continuation never yields `ok null`
is not `ok null`. -/
theorem except_bind_ne_null {α : Type} (m : Except String α)
    (g : α → Except String RVal) (hg : ∀ x, g x ≠ Except.ok RVal.null) :
    (m >>= g) ≠ Except.ok RVal.null := by
  cases m with
  | error e => exact fun h => Except.noConfusion h
  | ok x => exact hg x

/-- C4 amended: `renderBoneValue` yields `None` exactly when no language
wrapping applies and either the bone is relational-typed with a value
that is neither a list nor a dict, or record-typed with a falsy value, or
key-typed with a falsy value, or of an unlisted type with a stored value
that is itself `None` (passed through unchanged). -/
theorem renderBoneValue_null_iff (bone : RBone) (v : PyVal) (wrapped : Bool) :
    renderBoneValue bone v wrapped = .ok RVal.null ↔
      ((bone.languages.isEmpty || wrapped) = true ∧
        ((typeMatches bone.type "select" = false ∧
          typeMatches bone.type "relational" = true ∧ isListOrDict v = false)
        ∨ (typeMatches bone.type "select" = false ∧
           typeMatches bone.type "relational" = false ∧
           typeMatches bone.type "record" = true ∧ truthy v = false)
        ∨ (typeMatches bone.type "select" = false ∧
           typeMatches bone.type "relational" = false ∧
           typeMatches bone.type "record" = false ∧
           bone.type ≠ "password" ∧ bone.type = "key" ∧ truthy v = false)
        ∨ (typeMatches bone.type "select" = false ∧
           typeMatches bone.type "relational" = false ∧
           typeMatches bone.type "record" = false ∧
           bone.type ≠ "password" ∧ bone.type ≠ "key" ∧ v = PyVal.null))) := by
  unfold renderBoneValue
  cases hw : (!bone.languages.isEmpty && !wrapped) with
  | true =>
    have hcond : (bone.languages.isEmpty || wrapped) = false := by
      revert hw
      cases bone.languages.isEmpty <;> cases wrapped <;> simp
    rw [if_pos rfl]
    refine iff_of_false ?_ (by simp [hcond])
    rcases v with _ | s | xs | es | n
    all_goals exact except_bind_ne_null _ _ (fun es => by simp [pure, Except.pure])
  | false =>
    have hcond : (bone.languages.isEmpty || wrapped) = true := by
      revert hw
      cases bone.languages.isEmpty <;> cases wrapped <;> simp
    rw [if_neg (by simp)]
    unfold renderBoneValueDispatch
    cases hsel : typeMatches bone.type "select" with
    | true =>
      rw [if_pos rfl]
      refine iff_of_false ?_ (by simp)
      rcases v with _ | s | xs | es | n
      case str =>
        cases hd : dictGet bone.values s <;> simp [hd]
      all_goals simp
    | false =>
      rw [if_neg (by simp)]
      cases hrel : typeMatches bone.type "relational" with
      | true =>
        rw [if_pos rfl]
        rcases v with _ | s | xs | es | n
        case list =>
          refine iff_of_false ?_ (by simp [isListOrDict])
          exact except_bind_ne_null _ _ (fun es => by simp)
        case dict =>
          refine iff_of_false ?_ (by simp [isListOrDict])
          exact except_bind_ne_null _ _ (fun u =>
            except_bind_ne_null _ _ (fun d => by simp))
        all_goals simp [hcond, isListOrDict]
      | false =>
        rw [if_neg (by simp)]
        cases hrec : typeMatches bone.type "record" with
        | true =>
          rw [if_pos rfl]
          cases ht : truthy v with
          | true =>
            rw [if_pos rfl]
            cases hm : bone.multiple with
            | true =>
              rw [if_pos rfl]
              refine iff_of_false ?_ (by simp)
              exact except_bind_ne_null _ _ (fun es => by simp)
            | false =>
              rw [if_neg (by simp)]
              exact iff_of_false (by simp) (by simp)
          | false =>
            rw [if_neg (by simp)]
            simp [hcond]
        | false =>
          rw [if_neg (by simp)]
          cases hpw : bone.type == "password" with
          | true =>
            rw [if_pos rfl]
            have hpw' : bone.type = "password" := eq_of_beq hpw
            refine iff_of_false (by simp) (by simp [hpw'])
          | false =>
            rw [if_neg (by simp)]
            have hpw' : bone.type ≠ "password" := by
              intro he
              rw [he] at hpw
              simp at hpw
            cases hk : bone.type == "key" with
            | true =>
              rw [if_pos rfl]
              have hk' : bone.type = "key" := eq_of_beq hk
              cases ht : truthy v with
              | true => refine iff_of_false (by simp [ht]) (by simp [ht, hk'])
              | false => simp [hcond, hk', ht]
            | false =>
              rw [if_neg (by simp)]
              have hk' : bone.type ≠ "key" := by
                intro he
                rw [he] at hk
                simp at hk
              rcases v with _ | s | xs | es | n
              case null => simp [hcond, hpw', hk', RVal.ofPy]
              all_goals
                refine iff_of_false (by simp [RVal.ofPy]) (by simp [hpw', hk'])

/-- C8: in `list` and `listRootNodes`, a not-found failure of the first
template resolution is caught and resolution is retried with the
hard-coded name "list"; the failure propagates exactly when the retry
also fails, while a successful first resolution is used as-is. -/
theorem listTemplate_notfound_retry (ctx : TemplateCtx) (tpl : String) :
    (∀ r, getTemplateFileName ctx tpl false = .ok r →
       listResolveTemplate ctx tpl = .ok r ∧
       listRootNodesResolveTemplate ctx tpl = .ok r) ∧
    (∀ e, getTemplateFileName ctx tpl false = .error e →
       listResolveTemplate ctx tpl = getTemplateFileName ctx "list" false ∧
       listRootNodesResolveTemplate ctx tpl = getTemplateFileName ctx "list" false ∧
       (∀ e2, listResolveTemplate ctx tpl = .error e2 ↔
          getTemplateFileName ctx "list" false = .error e2)) := by
  constructor
  · intro r hr
    unfold listResolveTemplate listRootNodesResolveTemplate
    rw [hr]
    exact ⟨rfl, rfl⟩
  · intro e he
    unfold listResolveTemplate listRootNodesResolveTemplate
    rw [he]
    exact ⟨rfl, rfl, fun e2 => Iff.rfl⟩

/-- Witness for C8: resolving a missing name falls back to "list". -/
theorem listTemplate_notfound_retry_witness :
    listResolveTemplate egCtx "missing" = getTemplateFileName egCtx "list" false :=
  ((listTemplate_notfound_retry egCtx "missing").2
    "Template missing not found." (by rfl)).1

/-- Helper: resolving over an appended candidate list takes the first
segment's hit first. -/
theorem specResolve_append (isfile : String → Bool)
    (c1 c2 : List (String × String)) (msg : String) :
    specResolve isfile (c1 ++ c2) msg
      = match c1.find? (fun c => isfile c.1) with
        | some c => .ok c.2
        | none => specResolve isfile c2 msg := by
  unfold specResolve
  rw [List.find?_append]
  cases c1.find? (fun c => isfile c.1) <;> simp [Option.or]

/-- Helper: resolving over candidates built from a name list is the
search over the names. -/
theorem specResolve_map_names (isfile : String → Bool) (names : List String)
    (path fmt : String → String) (msg : String) :
    specResolve isfile (names.map (fun fn => (path fn, fmt fn))) msg
      = match names.find? (fun fn => isfile (path fn)) with
        | some fn => .ok (fmt fn)
        | none => .error msg := by
  unfold specResolve
  rw [List.find?_map]
  cases hf : names.find? ((fun c => isfile c.1) ∘ (fun fn => (path fn, fmt fn))) with
  | none =>
    have h2 : names.find? (fun fn => isfile (path fn)) = none := hf
    rw [h2]
    rfl
  | some fn =>
    have h2 : names.find? (fun fn => isfile (path fn)) = some fn := hf
    rw [h2]
    rfl

/-- Helper: the resolution fails (with the Not-Found message) exactly
when no candidate file exists. -/
theorem specResolve_error_iff (isfile : String → Bool)
    (cands : List (String × String)) (msg : String) :
    specResolve isfile cands msg = .error msg
      ↔ ∀ c ∈ cands, isfile c.1 = false := by
  unfold specResolve
  cases hf : cands.find? (fun c => isfile c.1) with
  | none =>
    simp only [List.find?_eq_none] at hf
    simp only [iff_true_intro rfl, true_iff]
    exact fun c hc => by simpa using hf c hc
  | some c =>
    refine iff_of_false (by simp) ?_
    intro hall
    have h1 : isfile c.1 = true := by
      have h := List.find?_some hf
      exact h
    have h2 : c ∈ cands := List.mem_of_find?_eq_some hf
    rw [hall c h2] at h1
    exact Bool.noConfusion h1

/-- Helper: resolution over the three probe tiers is the nested
first-hit search over the candidate names, tier-major. -/
theorem specResolve_three_tiers (isfile : String → Bool) (names : List String)
    (p1 p2 p3 f1 : String → String) (msg : String) :
    specResolve isfile
        ((names.map (fun fn => (p1 fn, f1 fn)))
          ++ (names.map (fun fn => (p2 fn, fn)))
          ++ (names.map (fun fn => (p3 fn, fn)))) msg
      = match names.find? (fun fn => isfile (p1 fn)) with
        | some fn => .ok (f1 fn)
        | none =>
          match names.find? (fun fn => isfile (p2 fn)) with
          | some fn => .ok fn
          | none =>
            match names.find? (fun fn => isfile (p3 fn)) with
            | some fn => .ok fn
            | none => .error msg := by
  unfold specResolve
  rw [List.append_assoc, List.find?_append, List.find?_append,
    List.find?_map, List.find?_map, List.find?_map]
  cases h1 : names.find? (fun fn => isfile (p1 fn)) with
  | some fn =>
    have h1' : names.find?
        ((fun c => isfile c.1) ∘ (fun fn => (p1 fn, f1 fn))) = some fn := h1
    rw [h1']
    rfl
  | none =>
    have h1' : names.find?
        ((fun c => isfile c.1) ∘ (fun fn => (p1 fn, f1 fn))) = none := h1
    rw [h1']
    cases h2 : names.find? (fun fn => isfile (p2 fn)) with
    | some fn =>
      have h2' : names.find?
          ((fun c => isfile c.1) ∘ (fun fn => (p2 fn, fn))) = some fn := h2
      rw [h2']
      rfl
    | none =>
      have h2' : names.find?
          ((fun c => isfile c.1) ∘ (fun fn => (p2 fn, fn))) = none := h2
      rw [h2']
      cases h3 : names.find? (fun fn => isfile (p3 fn)) with
      | some fn =>
        have h3' : names.find?
            ((fun c => isfile c.1) ∘ (fun fn => (p3 fn, fn))) = some fn := h3
        rw [h3']
        rfl
      | none =>
        have h3' : names.find?
            ((fun c => isfile c.1) ∘ (fun fn => (p3 fn, fn))) = none := h3
        rw [h3']
        rfl

/-- C9: with a display language set, `getTemplateFileName` equals the
spec-side first-hit search over the four candidate names probed
tier-major (application-specific subfolder, application template root,
built-in fallback root); it fails with the Not-Found message exactly
when no candidate exists; and whenever some candidate exists at the
application-specific tier the result is that tier's hit. -/
theorem getTemplateFileName_spec (ctx : TemplateCtx) (template : String)
    (ignoreStyle : Bool) (hlang : ctx.lang ≠ "") :
    getTemplateFileName ctx template ignoreStyle
      = specResolve ctx.isfile (specCandidates ctx template ignoreStyle)
          ("Template " ++ template ++ " not found.") ∧
    (getTemplateFileName ctx template ignoreStyle
        = .error ("Template " ++ template ++ " not found.")
      ↔ ∀ c ∈ specCandidates ctx template ignoreStyle, ctx.isfile c.1 = false) ∧
    (∀ fn ∈ templateFnames template (stylePostfix ignoreStyle ctx.styleKw) ctx.lang,
      ctx.isfile (pathJoin [ctx.projectBasePath, ctx.htmlpath,
        templatePfx template, fn]) = true →
      ∃ fn2, getTemplateFileName ctx template ignoreStyle
          = .ok (templatePfx template ++ "/" ++ fn2) ∧
        ctx.isfile (pathJoin [ctx.projectBasePath, ctx.htmlpath,
          templatePfx template, fn2]) = true) := by
  have hnames : templateFnames template (stylePostfix ignoreStyle ctx.styleKw)
      ctx.lang
      = [ctx.lang ++ "/" ++ (template ++ stylePostfix ignoreStyle ctx.styleKw
            ++ ".html"),
         template ++ stylePostfix ignoreStyle ctx.styleKw ++ ".html",
         ctx.lang ++ "/" ++ (template ++ ".html"),
         template ++ ".html"] := by
    unfold templateFnames
    rw [if_pos hlang]
  have h1 : getTemplateFileName ctx template ignoreStyle
      = specResolve ctx.isfile (specCandidates ctx template ignoreStyle)
          ("Template " ++ template ++ " not found.") := by
    simp only [specCandidates]
    rw [specResolve_three_tiers]
    simp only [getTemplateFileName]
    rw [hnames]
  refine ⟨h1, ?_, ?_⟩
  · rw [h1]
    exact specResolve_error_iff _ _ _
  · intro fn hfn hfile
    rw [hnames] at hfn
    simp only [getTemplateFileName]
    rw [hnames]
    cases hf : ([ctx.lang ++ "/" ++ (template ++ stylePostfix ignoreStyle
          ctx.styleKw ++ ".html"),
        template ++ stylePostfix ignoreStyle ctx.styleKw ++ ".html",
        ctx.lang ++ "/" ++ (template ++ ".html"),
        template ++ ".html"].find? (fun fn => ctx.isfile
          (pathJoin [ctx.projectBasePath, ctx.htmlpath,
            templatePfx template, fn]))) with
    | none =>
      exfalso
      have hnone := List.find?_eq_none.mp hf fn hfn
      rw [hfile] at hnone
      exact hnone rfl
    | some fn2 =>
      refine ⟨fn2, rfl, ?_⟩
      have h := List.find?_some hf
      exact h

/-- Witness for C9: with files only at the bundled-fallback tier the
resolution still succeeds and agrees with the spec-side search. -/
theorem getTemplateFileName_spec_witness :
    getTemplateFileName egCtx "view" false
      = specResolve egCtx.isfile (specCandidates egCtx "view" false)
          ("Template " ++ "view" ++ " not found.") :=
  (getTemplateFileName_spec egCtx "view" false (by decide)).1

example : getTemplateFileName egCtx "view" false = .ok "view.html" := by rfl

example : getTemplateFileName egCtx "list" false = .ok "list.html" := by rfl

example : getTemplateFileName egCtx "missing" false
    = .error "Template missing not found." := by rfl
